import Mathlib

/-!
Verification development for the digineo postfix_exporter repository.

The heart of the program is `parseLogLine` (logline_parser.go), a classifier
built from Go `regexp` patterns, together with `CollectFromLogLine`
(postfix_exporter.go), which folds a classification result into Prometheus
metric state, and the showq queue-snapshot parsers (showq.go).

Modelling choices:
* Go strings are modelled as `List Char`; `String` literals are converted via
  `String.toList` at the boundary of theorem statements.
* Go's `regexp` package implements leftmost-first (Perl-preference) matching.
  We model it with a small backtracking matcher over a regex syntax tree,
  using explicit fuel so that all definitions are structurally recursive and
  evaluate inside the kernel.  The fuel is linear in the input and strictly
  dominates the depth of any search path for the patterns in this file.
* `float64` values produced by `strconv.ParseFloat` are modelled exactly as
  rationals (`ℚ`).  Binary rounding, the `Inf`/`NaN` spellings, hexadecimal
  mantissas, digit underscores and range overflow are outside the model; none
  of the claims depend on them.
* Prometheus counters and histograms are modelled as event logs: a counter
  increment appends its label values, a histogram observation appends label
  values and the observed value.
-/

namespace PostExp

set_option maxRecDepth 65536

/-! ### A regex engine with Go (leftmost-first) semantics -/

/-- Regex syntax tree.  `pred` is a one-character class, `alt` prefers its
left alternative, `star` is greedy, `group n` records a capture, `bos`/`eos`
anchor to the beginning/end of the subject (Go `^`/`$` without multiline). -/
inductive RE where
  | eps
  | pred (p : Char → Bool)
  | seq (a b : RE)
  | alt (a b : RE)
  | star (a : RE)
  | group (n : Nat) (a : RE)
  | bos
  | eos

/-- Capture list: entries `(groupIndex, startPos, endPos)`, most recent first. -/
abbrev Caps := List (Nat × Nat × Nat)

/-- Backtracking matcher in continuation-passing style.  The continuation
receives the remaining input, the current position and the captures; the
result of a whole match is the end position together with the captures.
Preference order: `alt` tries the left branch first and `star` tries to
consume another iteration first (greedy), which is exactly Go's (and Perl's)
preference semantics.  A `star` iteration must advance the position.  Fuel
decreases on every recursive call; it only bounds the nesting depth of one
search path, not the total number of backtracking attempts. -/
def matchRE : Nat → RE → List Char → Nat → Caps →
    (List Char → Nat → Caps → Option (Nat × Caps)) → Option (Nat × Caps)
  | 0, _, _, _, _, _ => none
  | Nat.succ f, r, s, pos, caps, k =>
    match r with
    | .eps => k s pos caps
    | .pred p =>
      match s with
      | [] => none
      | c :: rest => if p c then k rest (pos + 1) caps else none
    | .seq a b => matchRE f a s pos caps fun s' p' c' => matchRE f b s' p' c' k
    | .alt a b =>
      (matchRE f a s pos caps k).orElse fun _ => matchRE f b s pos caps k
    | .star a =>
      (matchRE f a s pos caps fun s' p' c' =>
        if pos < p' then matchRE f (.star a) s' p' c' k else none).orElse
        fun _ => k s pos caps
    | .group n a =>
      matchRE f a s pos caps fun s' p' c' => k s' p' ((n, pos, p') :: c')
    | .bos => if pos = 0 then k s pos caps else none
    | .eos => match s with
      | [] => k s pos caps
      | _ :: _ => none

/-- Fuel that strictly dominates the search-path depth of every pattern in
this file on a given subject. -/
def reFuel (s : List Char) : Nat := 2 * s.length + 200

/-- A successful match: the subject, the bounds of group 0 and the capture
list. -/
structure ReMatch where
  input : List Char
  start : Nat
  stop : Nat
  caps : Caps
deriving DecidableEq

/-- Submatch `n` (`0` is the whole match); `none` when the group did not take
part in the match, mirroring a `nil` submatch slice in Go. -/
def ReMatch.group (m : ReMatch) (n : Nat) : Option (List Char) :=
  if n = 0 then some ((m.input.drop m.start).take (m.stop - m.start))
  else
    (m.caps.find? fun e => e.1 == n).map fun e =>
      (m.input.drop e.2.1).take (e.2.2 - e.2.1)

/-- Submatch `n` with an unmatched group rendered as the empty string, which
is how `FindStringSubmatch` surfaces it in Go. -/
def ReMatch.groupD (m : ReMatch) (n : Nat) : List Char := (m.group n).getD []

/-- Try to match `r` at one fixed position of `orig`. -/
def tryMatchAt (r : RE) (orig suffx : List Char) (pos : Nat) : Option ReMatch :=
  match matchRE (reFuel orig) r suffx pos [] (fun _ p' c' => some (p', c')) with
  | some (pEnd, caps) => some ⟨orig, pos, pEnd, caps⟩
  | none => none

def reFindAux (r : RE) (orig : List Char) : List Char → Nat → Option ReMatch
  | [], pos => tryMatchAt r orig [] pos
  | s@(_ :: rest), pos =>
    (tryMatchAt r orig s pos).orElse fun _ => reFindAux r orig rest (pos + 1)

/-- Model of Go's `FindStringSubmatch`/`MatchString`: the match starting at
the leftmost possible position wins, and at that position the backtracking
preference order decides, which is Go's leftmost-first semantics. -/
def reFind (r : RE) (s : List Char) : Option ReMatch := reFindAux r s s 0

/-! Convenience constructors for transliterating the Go patterns. -/

def chr (c : Char) : RE := .pred fun d => d == c

def lit (s : String) : RE := (s.toList.map chr).foldr .seq .eps

def cat (l : List RE) : RE := l.foldr .seq .eps

def opt (r : RE) : RE := .alt r .eps

def plus (r : RE) : RE := .seq r (.star r)

/-- Go `\d`. -/
def digit : RE := .pred Char.isDigit

/-- Go `\w` = `[0-9A-Za-z_]`. -/
def wordChar : RE := .pred fun c => c.isAlphanum || c == '_'

/-- Go `\s` = `[\t\n\f\r ]`. -/
def isSpaceGo (c : Char) : Bool :=
  c == ' ' || c == '\t' || c == '\n' || c == '\x0c' || c == '\r'

def spaceChar : RE := .pred isSpaceGo

/-- Go `\S`. -/
def nonSpace : RE := .pred fun c => !isSpaceGo c

/-- Go `.` (without the `s` flag): any character except newline. -/
def dot : RE := .pred fun c => c != '\n'

/-- Go `[0-9\.]`. -/
def digitDot : RE := .pred fun c => c.isDigit || c == '.'

/-! ### The patterns of logline_parser.go, transliterated -/

/-- Go: `` ?(postfix(?:-\w+)?)(?:/(\w+))?\[\d+\]: (.*)`` -/
def logLine : RE :=
  cat [opt (chr ' '),
       .group 1 (cat [lit "postfix", opt (cat [chr '-', plus wordChar])]),
       opt (cat [chr '/', .group 2 (plus wordChar)]),
       chr '[', plus digit, lit "]: ",
       .group 3 (.star dot)]

/-- Go: `, relay=(\S+), .*, delays=([0-9\.]+)/([0-9\.]+)/([0-9\.]+)/([0-9\.]+), ` -/
def lmtpPipeSMTPLine : RE :=
  cat [lit ", relay=", .group 1 (plus nonSpace), lit ", ", .star dot,
       lit ", delays=",
       .group 2 (plus digitDot), chr '/',
       .group 3 (plus digitDot), chr '/',
       .group 4 (plus digitDot), chr '/',
       .group 5 (plus digitDot), lit ", "]

/-- Go: `:.*, size=(\d+), nrcpt=(\d+) ` -/
def qmgrInsertLine : RE :=
  cat [chr ':', .star dot, lit ", size=", .group 1 (plus digit),
       lit ", nrcpt=", .group 2 (plus digit), chr ' ']

/-- Go: `, status=(\w+)` -/
def smtpStatusLine : RE := cat [lit ", status=", .group 1 (plus wordChar)]

/-- Go: `^(\S+) TLS connection established to \S+: (\S+) with cipher (\S+) \((\d+)/(\d+) bits\)` -/
def smtpTLSLine : RE :=
  cat [.bos, .group 1 (plus nonSpace), lit " TLS connection established to ",
       plus nonSpace, lit ": ", .group 2 (plus nonSpace), lit " with cipher ",
       .group 3 (plus nonSpace), lit " (", .group 4 (plus digit), chr '/',
       .group 5 (plus digit), lit " bits)"]

/-- Go: `^connect\s+to\s+(.*)\[(.*)\]:(\d+):\s+(Connection timed out)$` -/
def smtpConnectionTimedOut : RE :=
  cat [.bos, lit "connect", plus spaceChar, lit "to", plus spaceChar,
       .group 1 (.star dot), chr '[', .group 2 (.star dot), lit "]:",
       .group 3 (plus digit), chr ':', plus spaceChar,
       .group 4 (lit "Connection timed out"), .eos]

/-- Go: `^warning: hostname \S+ does not resolve to address ` -/
def smtpdFCrDNSErrorsLine : RE :=
  cat [.bos, lit "warning: hostname ", plus nonSpace,
       lit " does not resolve to address "]

/-- Go: `: client=.*, sasl_method=([^,\s]+)?` -/
def smtpdProcessesSASLLine : RE :=
  cat [lit ": client=", .star dot, lit ", sasl_method=",
       opt (.group 1 (plus (.pred fun c => !(c == ',' || isSpaceGo c))))]

/-- Go: `^NOQUEUE: reject: RCPT from \S+: ([0-9]+) ` -/
def smtpdRejectsLine : RE :=
  cat [.bos, lit "NOQUEUE: reject: RCPT from ", plus nonSpace, lit ": ",
       .group 1 (plus digit), chr ' ']

/-- Go: `^lost connection after (\w+) from ` -/
def smtpdLostConnectionLine : RE :=
  cat [.bos, lit "lost connection after ", .group 1 (plus wordChar),
       lit " from "]

/-- Go: `^warning: \S+: SASL \S+ authentication failed: ` -/
def smtpdSASLAuthenticationFailuresLine : RE :=
  cat [.bos, lit "warning: ", plus nonSpace, lit ": SASL ", plus nonSpace,
       lit " authentication failed: "]

/-- Go: `^(\S+) TLS connection established from \S+: (\S+) with cipher (\S+) \((\d+)/(\d+) bits\)` -/
def smtpdTLSLine : RE :=
  cat [.bos, .group 1 (plus nonSpace), lit " TLS connection established from ",
       plus nonSpace, lit ": ", .group 2 (plus nonSpace), lit " with cipher ",
       .group 3 (plus nonSpace), lit " (", .group 4 (plus digit), chr '/',
       .group 5 (plus digit), lit " bits)"]

/-! ### Numeric conversion (strconv.ParseFloat / convertValue) -/

/-- Value of a digit string. -/
def digitsVal (l : List Char) : Nat :=
  l.foldl (fun a c => a * 10 + (c.toNat - '0'.toNat)) 0

/-- Model of `strconv.ParseFloat(s, 64)` on the decimal forms
`[+-]? digits [. digits]? ([eE] [+-]? digits)?` (with at least one mantissa
digit), returning the exact rational value.  The whole string must be
consumed, as in Go. -/
def goParseFloat (s : List Char) : Option ℚ :=
  let sign : ℚ × List Char :=
    match s with
    | '+' :: t => (1, t)
    | '-' :: t => (-1, t)
    | t => (1, t)
  let ip := sign.2.takeWhile Char.isDigit
  let s2 := sign.2.dropWhile Char.isDigit
  let fr : Option (List Char) × List Char :=
    match s2 with
    | '.' :: t => (some (t.takeWhile Char.isDigit), t.dropWhile Char.isDigit)
    | t => (none, t)
  if ip.isEmpty && (match fr.1 with | none => true | some f => f.isEmpty) then
    none
  else
    let mant : ℚ := (digitsVal ip : ℚ) +
      (match fr.1 with
       | none => 0
       | some f => (digitsVal f : ℚ) / ((10 : ℚ) ^ f.length))
    match fr.2 with
    | [] => some (sign.1 * mant)
    | e :: t =>
      if e == 'e' || e == 'E' then
        let es : Int × List Char :=
          match t with
          | '+' :: u => (1, u)
          | '-' :: u => (-1, u)
          | u => (1, u)
        let ed := es.1 * (digitsVal (es.2.takeWhile Char.isDigit) : Int)
        if (es.2.takeWhile Char.isDigit).isEmpty
            || !(es.2.dropWhile Char.isDigit).isEmpty then none
        else some (sign.1 * mant * (10 : ℚ) ^ ed)
      else none

/-- Go `convertValue`: parse failures are logged and yield the zero value,
never aborting classification. -/
def convertValue (s : List Char) : ℚ := (goParseFloat s).getD 0

/-! ### Helpers for the Go `strings` package -/

def listHasPfx (pre l : List Char) : Bool := List.isPrefixOf pre l

def listHasSfx (suf l : List Char) : Bool := List.isSuffixOf suf l

/-- Go `strings.Contains l sub`. -/
def listHasSub (sub : List Char) : List Char → Bool
  | [] => sub.isEmpty
  | l@(_ :: rest) => listHasPfx sub l || listHasSub sub rest

/-! ### The classification result (struct loglineResult of logline_parser.go) -/

/-- Go struct `delay`: the four-stage latency quadruple.  That all four
stages are populated together is enforced by this record type, exactly as by
the Go struct behind the `*delay` pointer. -/
structure Delay where
  beforeQueueManager : ℚ
  queueManager : ℚ
  connSetup : ℚ
  transmission : ℚ
deriving DecidableEq

structure CleanupResult where
  process : Bool
  reject : Bool
deriving DecidableEq

structure LmtpResult where
  delays : Option Delay
deriving DecidableEq

structure PipeResult where
  relay : List Char
  delays : Option Delay
deriving DecidableEq

structure QmgrResult where
  size : ℚ
  nrcpt : ℚ
  removed : Bool
deriving DecidableEq

structure SmtpResult where
  delays : Option Delay
  status : List Char
  tls : Option (List (List Char))
  timeout : Bool
deriving DecidableEq

structure SmtpdResult where
  connect : Bool
  disconnect : Bool
  dnsError : Bool
  process : Bool
  lostConnection : List Char
  saslMethod : List Char
  saslAuthFailed : Bool
  reject : List Char
  tls : Option (List (List Char))
deriving DecidableEq

/-- Go struct `loglineResult`.  `*delay` pointers become `Option Delay`, the
`[]string` TLS slices become `Option (List (List Char))` (nil vs non-nil is
significant for the metrics mapper). -/
structure LoglineResult where
  process : List Char
  subprocess : List Char
  ignore : Bool
  unsupported : Bool
  cleanup : CleanupResult
  lmtp : LmtpResult
  pipe : PipeResult
  qmgr : QmgrResult
  smtp : SmtpResult
  smtpd : SmtpdResult
deriving DecidableEq

/-- The Go zero value of `loglineResult` (named return `p`). -/
def emptyResult : LoglineResult where
  process := []
  subprocess := []
  ignore := false
  unsupported := false
  cleanup := ⟨false, false⟩
  lmtp := ⟨none⟩
  pipe := ⟨[], none⟩
  qmgr := ⟨0, 0, false⟩
  smtp := ⟨none, [], none, false⟩
  smtpd := ⟨false, false, false, false, [], [], false, [], none⟩

/-! The dispatch of `parseLogLine` (logline_parser.go).  Each case of the Go
`switch p.subprocess` is transliterated as one helper function on the
subprocess token and the remainder; `parseLogLine` itself strips the common
syslog part, applies the instance filter and dispatches.  The Go `switch`
becomes an if-chain, preserving evaluation order. -/

/-- Go `case "cleanup":` of `parseLogLine`. -/
def cleanupCase (sub remainder : List Char) : LoglineResult :=
  if listHasSub ": message-id=<".toList remainder then
    { emptyResult with subprocess := sub, cleanup := ⟨true, false⟩ }
  else if listHasSub ": reject: ".toList remainder then
    { emptyResult with subprocess := sub, cleanup := ⟨false, true⟩ }
  else { emptyResult with subprocess := sub, unsupported := true }

/-- Go `case "lmtp":` of `parseLogLine`. -/
def lmtpCase (sub remainder : List Char) : LoglineResult :=
  match reFind lmtpPipeSMTPLine remainder with
  | some lm =>
    { emptyResult with
        subprocess := sub
        lmtp := ⟨some ⟨convertValue (lm.groupD 2), convertValue (lm.groupD 3),
                       convertValue (lm.groupD 4), convertValue (lm.groupD 5)⟩⟩ }
  | none => { emptyResult with subprocess := sub, unsupported := true }

/-- Go `case "pipe":` of `parseLogLine`. -/
def pipeCase (sub remainder : List Char) : LoglineResult :=
  match reFind lmtpPipeSMTPLine remainder with
  | some pm =>
    { emptyResult with
        subprocess := sub
        pipe := ⟨pm.groupD 1,
                 some ⟨convertValue (pm.groupD 2), convertValue (pm.groupD 3),
                       convertValue (pm.groupD 4), convertValue (pm.groupD 5)⟩⟩ }
  | none => { emptyResult with subprocess := sub, unsupported := true }

/-- Go `case "qmgr":` of `parseLogLine`: the insert pattern is tried first,
then the `": removed"` suffix. -/
def qmgrCase (sub remainder : List Char) : LoglineResult :=
  match reFind qmgrInsertLine remainder with
  | some qm =>
    { emptyResult with
        subprocess := sub
        qmgr := ⟨convertValue (qm.groupD 1), convertValue (qm.groupD 2), false⟩ }
  | none =>
    if listHasSfx ": removed".toList remainder then
      { emptyResult with subprocess := sub, qmgr := ⟨0, 0, true⟩ }
    else { emptyResult with subprocess := sub, unsupported := true }

/-- Go `case "smtp":` of `parseLogLine`: delay pattern (with the status
annotation looked up only there), then TLS, then timeout, else unsupported. -/
def smtpCase (sub remainder : List Char) : LoglineResult :=
  match reFind lmtpPipeSMTPLine remainder with
  | some sm =>
    { emptyResult with
        subprocess := sub
        smtp := ⟨some ⟨convertValue (sm.groupD 2), convertValue (sm.groupD 3),
                       convertValue (sm.groupD 4), convertValue (sm.groupD 5)⟩,
                 (match reFind smtpStatusLine remainder with
                  | some stm => stm.groupD 1
                  | none => []),
                 none, false⟩ }
  | none =>
    match reFind smtpTLSLine remainder with
    | some tm =>
      { emptyResult with
          subprocess := sub
          smtp := ⟨none, [],
                   some [tm.groupD 1, tm.groupD 2, tm.groupD 3,
                         tm.groupD 4, tm.groupD 5], false⟩ }
    | none =>
      match reFind smtpConnectionTimedOut remainder with
      | some _ =>
        { emptyResult with subprocess := sub, smtp := ⟨none, [], none, true⟩ }
      | none => { emptyResult with subprocess := sub, unsupported := true }

/-- Go `case "smtpd":` of `parseLogLine`: the nine checks in source order,
first match wins. -/
def smtpdCase (sub remainder : List Char) : LoglineResult :=
  if listHasPfx "connect from ".toList remainder then
    { emptyResult with subprocess := sub
                       smtpd := { emptyResult.smtpd with connect := true } }
  else if listHasPfx "disconnect from ".toList remainder then
    { emptyResult with subprocess := sub
                       smtpd := { emptyResult.smtpd with disconnect := true } }
  else if (reFind smtpdFCrDNSErrorsLine remainder).isSome then
    { emptyResult with subprocess := sub
                       smtpd := { emptyResult.smtpd with dnsError := true } }
  else
    match reFind smtpdLostConnectionLine remainder with
    | some lcm =>
      { emptyResult with
          subprocess := sub
          smtpd := { emptyResult.smtpd with lostConnection := lcm.groupD 1 } }
    | none =>
      match reFind smtpdProcessesSASLLine remainder with
      | some sasm =>
        { emptyResult with
            subprocess := sub
            smtpd := { emptyResult.smtpd with saslMethod := sasm.groupD 1 } }
      | none =>
        if listHasSub ": client=".toList remainder then
          { emptyResult with
              subprocess := sub
              smtpd := { emptyResult.smtpd with process := true } }
        else
          match reFind smtpdRejectsLine remainder with
          | some rjm =>
            { emptyResult with
                subprocess := sub
                smtpd := { emptyResult.smtpd with reject := rjm.groupD 1 } }
          | none =>
            if (reFind smtpdSASLAuthenticationFailuresLine remainder).isSome then
              { emptyResult with
                  subprocess := sub
                  smtpd := { emptyResult.smtpd with saslAuthFailed := true } }
            else
              match reFind smtpdTLSLine remainder with
              | some tlm =>
                { emptyResult with
                    subprocess := sub
                    smtpd := { emptyResult.smtpd with
                                 tls := some [tlm.groupD 1, tlm.groupD 2,
                                              tlm.groupD 3, tlm.groupD 4,
                                              tlm.groupD 5] } }
              | none =>
                { emptyResult with subprocess := sub, unsupported := true }

/-- Transliteration of `parseLogLine` (logline_parser.go). -/
def parseLogLine (inst line : List Char) : LoglineResult :=
  match reFind logLine line with
  | none => { emptyResult with unsupported := true }
  | some m =>
    if m.groupD 1 ≠ inst then
      { emptyResult with
          subprocess := m.groupD 2
          ignore := listHasPfx "postfix".toList (m.groupD 1)
          unsupported := true }
    else if m.groupD 2 = "cleanup".toList then cleanupCase (m.groupD 2) (m.groupD 3)
    else if m.groupD 2 = "lmtp".toList then lmtpCase (m.groupD 2) (m.groupD 3)
    else if m.groupD 2 = "pipe".toList then pipeCase (m.groupD 2) (m.groupD 3)
    else if m.groupD 2 = "qmgr".toList then qmgrCase (m.groupD 2) (m.groupD 3)
    else if m.groupD 2 = "smtp".toList then smtpCase (m.groupD 2) (m.groupD 3)
    else if m.groupD 2 = "smtpd".toList then smtpdCase (m.groupD 2) (m.groupD 3)
    else { emptyResult with subprocess := m.groupD 2, unsupported := true }

/-! ### Metric state and the metrics mapper (postfix_exporter.go) -/

/-- Label values of one event. -/
abbrev Labels := List (List Char)

/-- The metric state of `PostfixExporter` that `CollectFromLogLine` can touch,
as event logs: a `CounterVec` field records the label values of each `Inc`, a
`HistogramVec` field records label values and value of each `Observe`.
`smtpStatusTouched` records the bare `WithLabelValues` calls on the
`smtpStatus` counter (the code instantiates the labelled child without
incrementing it). -/
structure MetricsState where
  cleanupProcesses : List Labels
  cleanupRejects : List Labels
  lmtpDelays : List (Labels × ℚ)
  pipeDelays : List (Labels × ℚ)
  qmgrInsertsNrcpt : List (Labels × ℚ)
  qmgrInsertsSize : List (Labels × ℚ)
  qmgrRemoves : List Labels
  smtpDelays : List (Labels × ℚ)
  smtpTLSConnects : List Labels
  smtpConnectionTimedOutTotal : List Labels
  smtpdConnects : List Labels
  smtpdDisconnects : List Labels
  smtpdFCrDNSErrors : List Labels
  smtpdLostConnections : List Labels
  smtpdProcesses : List Labels
  smtpdRejects : List Labels
  smtpdSASLConnects : List Labels
  smtpdSASLAuthenticationFailures : List Labels
  smtpdTLSConnects : List Labels
  unsupportedLogEntries : List Labels
  smtpStatusTouched : List Labels
deriving DecidableEq

/-- Transliteration of `(*PostfixExporter).CollectFromLogLine`. -/
def CollectFromLogLine (inst line : List Char) (e : MetricsState) : MetricsState :=
  let r := parseLogLine inst line
  if r.unsupported then
    if !r.ignore then
      { e with unsupportedLogEntries :=
          e.unsupportedLogEntries ++ [[inst, r.subprocess]] }
    else e
  else if r.subprocess = "cleanup".toList then
    if r.cleanup.process then
      { e with cleanupProcesses := e.cleanupProcesses ++ [[inst]] }
    else if r.cleanup.reject then
      { e with cleanupRejects := e.cleanupRejects ++ [[inst]] }
    else e
  else if r.subprocess = "lmtp".toList then
    match r.lmtp.delays with
    | some v =>
      { e with lmtpDelays := e.lmtpDelays ++
          [([inst, "before_queue_manager".toList], v.beforeQueueManager),
           ([inst, "queue_manager".toList], v.queueManager),
           ([inst, "connection_setup".toList], v.connSetup),
           ([inst, "transmission".toList], v.transmission)] }
    | none => e
  else if r.subprocess = "pipe".toList then
    match r.pipe.delays with
    | some v =>
      { e with pipeDelays := e.pipeDelays ++
          [([inst, r.pipe.relay, "before_queue_manager".toList], v.beforeQueueManager),
           ([inst, r.pipe.relay, "queue_manager".toList], v.queueManager),
           ([inst, r.pipe.relay, "connection_setup".toList], v.connSetup),
           ([inst, r.pipe.relay, "transmission".toList], v.transmission)] }
    | none => e
  else if r.subprocess = "qmgr".toList then
    if r.qmgr.removed then
      { e with qmgrRemoves := e.qmgrRemoves ++ [[inst]] }
    else
      { e with
          qmgrInsertsSize := e.qmgrInsertsSize ++ [([inst], r.qmgr.size)]
          qmgrInsertsNrcpt := e.qmgrInsertsNrcpt ++ [([inst], r.qmgr.nrcpt)] }
  else if r.subprocess = "smtp".toList then
    match r.smtp.delays with
    | some v =>
      let e1 := { e with smtpDelays := e.smtpDelays ++
          [([inst, "before_queue_manager".toList], v.beforeQueueManager),
           ([inst, "queue_manager".toList], v.queueManager),
           ([inst, "connection_setup".toList], v.connSetup),
           ([inst, "transmission".toList], v.transmission)] }
      if r.smtp.status ≠ [] then
        { e1 with smtpStatusTouched :=
            e1.smtpStatusTouched ++ [[inst, r.smtp.status]] }
      else e1
    | none =>
      match r.smtp.tls with
      | some v =>
        { e with smtpTLSConnects := e.smtpTLSConnects ++ [inst :: v] }
      | none =>
        if r.smtp.timeout then
          { e with smtpConnectionTimedOutTotal :=
              e.smtpConnectionTimedOutTotal ++ [[inst]] }
        else e
  else if r.subprocess = "smtpd".toList then
    if r.smtpd.connect then
      { e with smtpdConnects := e.smtpdConnects ++ [[inst]] }
    else if r.smtpd.disconnect then
      { e with smtpdDisconnects := e.smtpdDisconnects ++ [[inst]] }
    else if r.smtpd.dnsError then
      { e with smtpdFCrDNSErrors := e.smtpdFCrDNSErrors ++ [[inst]] }
    else if r.smtpd.lostConnection ≠ [] then
      { e with smtpdLostConnections :=
          e.smtpdLostConnections ++ [[inst, r.smtpd.lostConnection]] }
    else if r.smtpd.saslMethod ≠ [] then
      { e with smtpdSASLConnects :=
          e.smtpdSASLConnects ++ [[inst, r.smtpd.saslMethod]] }
    else if r.smtpd.process then
      { e with smtpdProcesses := e.smtpdProcesses ++ [[inst]] }
    else if r.smtpd.reject ≠ [] then
      { e with smtpdRejects := e.smtpdRejects ++ [[inst, r.smtpd.reject]] }
    else if r.smtpd.saslAuthFailed then
      { e with smtpdSASLAuthenticationFailures :=
          e.smtpdSASLAuthenticationFailures ++ [[inst]] }
    else
      match r.smtpd.tls with
      | some v =>
        { e with smtpdTLSConnects := e.smtpdTLSConnects ++ [inst :: v] }
      | none => e
  else e

/-! ### Binary showq parsing (showq.go) -/

/-- Composite behaviour of a `bufio.Scanner` driven by
`ScanNullTerminatedEntries`: the NUL-separated tokens of the input, plus a
flag reporting data at the end of the input without a NUL terminator (on
which the splitter fails with "Expected null byte terminator"). -/
def scanTokensAux : List Char → List Char → List (List Char) × Bool
  | [], acc => ([], !acc.isEmpty)
  | c :: rest, acc =>
    if c = '\u0000' then
      let t := scanTokensAux rest []
      (acc.reverse :: t.1, t.2)
    else scanTokensAux rest (c :: acc)

def scanTokens (l : List Char) : List (List Char) × Bool := scanTokensAux l []

/-- Observations made by a showq parser: `(queue, value)` events of the size
and age histograms (the instance label is constant per call and the pre-seeded
zero-observation series carry no events). -/
structure ShowqState where
  sizeObs : List (List Char × ℚ)
  ageObs : List (List Char × ℚ)
deriving DecidableEq

def emptyShowq : ShowqState := ⟨[], []⟩

/-- Key/value loop of `CollectBinaryShowqFromReader`.  An empty key resets the
current queue to "unknown"; a key with no following value is a fatal error, as
is an unparseable `size`/`time` value; unrecognized keys are skipped.  When
the tokens are exhausted, `tail = true` reproduces the scanner error for a
final record without NUL terminator. -/
def collectBinaryGo (now : ℚ) :
    List (List Char) → List Char → ShowqState → Bool →
      Except (List Char) ShowqState
  | [], _, st, tail =>
    if tail then .error "Expected null byte terminator".toList else .ok st
  | key :: rest, queue, st, tail =>
    if key.isEmpty then collectBinaryGo now rest "unknown".toList st tail
    else
      match rest with
      | [] => .error ("key ".toList ++ key ++ " does not have a value".toList)
      | value :: rest' =>
        if key = "queue_name".toList then
          collectBinaryGo now rest' value st tail
        else if key = "size".toList then
          match goParseFloat value with
          | none => .error ("invalid syntax".toList)
          | some v =>
            collectBinaryGo now rest' queue
              { st with sizeObs := st.sizeObs ++ [(queue, v)] } tail
        else if key = "time".toList then
          match goParseFloat value with
          | none => .error ("invalid syntax".toList)
          | some t =>
            collectBinaryGo now rest' queue
              { st with ageObs := st.ageObs ++ [(queue, now - t)] } tail
        else collectBinaryGo now rest' queue st tail

/-- Transliteration of `CollectBinaryShowqFromReader` over its input bytes;
`now` is the capture time in seconds. -/
def CollectBinaryShowqFromReader (now : ℚ) (input : List Char) :
    Except (List Char) ShowqState :=
  let t := scanTokens input
  collectBinaryGo now t.1 "unknown".toList emptyShowq t.2

/-- Modelled from the spec: the error condition as claim C7 words it — the
input "contains a malformed binary record (a key token with no following
value token) or an unparseable numeric/timestamp field" — as a predicate on
the token stream.  It deliberately does NOT cover trailing data without a NUL
terminator; the comparison with the code settles the claim. -/
def claimMalformedRecord : List (List Char) → Bool
  | [] => false
  | key :: rest =>
    if key.isEmpty then claimMalformedRecord rest
    else
      match rest with
      | [] => true
      | value :: rest' =>
        ((key == "size".toList || key == "time".toList)
            && (goParseFloat value).isNone)
          || claimMalformedRecord rest'

/-! ### Calendar arithmetic for textual showq parsing

The textual parser calls `time.ParseInLocation("Mon Jan 2 15:04:05", ...)`
(which yields year 0), `AddDate(now.Year(), 0, 0)`, `After` and `Sub`.  We
model a Go `time.Time` by its civil fields at second resolution, in a fixed
location (daylight-saving shifts are outside the model).  The key facts of
Go's `Date` normalization used here: the absolute time of `Date(y, m, d, ...)`
with `1 ≤ m ≤ 12` is the linear extension in `d` of the civil calendar, and
the only parseable yearless date whose fields are renormalized by
`AddDate(now.Year(), 0, 0)` is Feb 29 in a non-leap year, which becomes
Mar 1. -/

def isLeap (y : Int) : Bool :=
  decide (y % 4 = 0 ∧ (y % 100 ≠ 0 ∨ y % 400 = 0))

/-- Days before month `m` in a non-leap year. -/
def daysBeforeMonth (m : Int) : Int :=
  if m = 1 then 0 else if m = 2 then 31 else if m = 3 then 59
  else if m = 4 then 90 else if m = 5 then 120 else if m = 6 then 151
  else if m = 7 then 181 else if m = 8 then 212 else if m = 9 then 243
  else if m = 10 then 273 else if m = 11 then 304 else 334

/-- Days since Jan 1 of year 1 of the civil date `(y, m, d)`, linear in `d`.
For `1 ≤ m ≤ 12` this is the absolute day of Go's `Date(y, m, d, ...)`, even
when `d` exceeds the month length (Go normalizes to the same absolute day). -/
def daysFromCivil (y m d : Int) : Int :=
  365 * (y - 1) + (y - 1) / 4 - (y - 1) / 100 + (y - 1) / 400
    + daysBeforeMonth m + (if 2 < m ∧ isLeap y then 1 else 0) + (d - 1)

/-- A Go `time.Time` at second resolution: civil fields plus second of day. -/
structure GoTime where
  year : Int
  month : Int
  day : Int
  sod : Int
deriving DecidableEq

/-- Absolute seconds of a `GoTime` (epoch: Jan 1 of year 1). -/
def GoTime.secs (t : GoTime) : Int :=
  86400 * daysFromCivil t.year t.month t.day + t.sod

/-- Result of parsing the captured yearless date: month, day, second of day. -/
structure ShowDate where
  month : Int
  day : Int
  sod : Int
deriving DecidableEq

/-- Month lengths in year 0.  Year 0 is a leap year in Go's proleptic
calendar, so `Feb 29` parses. -/
def daysInMonth0 (m : Int) : Int :=
  if m = 2 then 29
  else if m = 4 ∨ m = 6 ∨ m = 9 ∨ m = 11 then 30
  else 31

def monthTable : List (List Char × Int) :=
  [("Jan".toList, 1), ("Feb".toList, 2), ("Mar".toList, 3), ("Apr".toList, 4),
   ("May".toList, 5), ("Jun".toList, 6), ("Jul".toList, 7), ("Aug".toList, 8),
   ("Sep".toList, 9), ("Oct".toList, 10), ("Nov".toList, 11), ("Dec".toList, 12)]

def monthNum (s : List Char) : Option Int :=
  (monthTable.find? fun p => p.1 == s).map fun p => p.2

def isDayName (s : List Char) : Bool :=
  s = "Mon".toList || s = "Tue".toList || s = "Wed".toList
    || s = "Thu".toList || s = "Fri".toList || s = "Sat".toList
    || s = "Sun".toList

/-- Go `getnum` with `fixed = false`: one digit, or two if the next character
is also a digit. -/
def getNum : List Char → Option (Int × List Char)
  | c1 :: c2 :: rest =>
    if c1.isDigit then
      if c2.isDigit then
        some (((digitsVal [c1, c2] : Nat) : Int), rest)
      else some (((digitsVal [c1] : Nat) : Int), c2 :: rest)
    else none
  | [c1] => if c1.isDigit then some (((digitsVal [c1] : Nat) : Int), []) else none
  | [] => none

/-- Go `getnum` with `fixed = true`: exactly two digits. -/
def getNum2 : List Char → Option (Int × List Char)
  | c1 :: c2 :: rest =>
    if c1.isDigit && c2.isDigit then
      some (((digitsVal [c1, c2] : Nat) : Int), rest)
    else none
  | _ => none

/-- Model of `time.ParseInLocation("Mon Jan 2 15:04:05", s, loc)`: day name,
month name, 1–2 digit day, 1–2 digit hour, 2-digit minute and second, single
literal spaces and colons, the whole string consumed, with Go's range checks
(day against the month length in year 0, hour below 24, minute and second
below 60).  The parsed weekday is not validated against the date, as in Go.
Month and weekday names are matched case-sensitively here; Go's lookup also
accepts case variants, which only widens the accepted inputs and plays no
role in the year-inference property. -/
def parseShowqDate (s : List Char) : Option ShowDate :=
  match s with
  | d1 :: d2 :: d3 :: ' ' :: m1 :: m2 :: m3 :: ' ' :: rest =>
    if isDayName [d1, d2, d3] then
      match monthNum [m1, m2, m3] with
      | none => none
      | some mo =>
        match getNum rest with
        | none => none
        | some (da, rest1) =>
          match rest1 with
          | ' ' :: rest2 =>
            match getNum rest2 with
            | none => none
            | some (hh, rest3) =>
              match rest3 with
              | ':' :: rest4 =>
                match getNum2 rest4 with
                | none => none
                | some (mi, rest5) =>
                  match rest5 with
                  | ':' :: rest6 =>
                    match getNum2 rest6 with
                    | none => none
                    | some (ss, rest7) =>
                      if rest7 = [] ∧ 1 ≤ da ∧ da ≤ daysInMonth0 mo
                          ∧ hh ≤ 23 ∧ mi ≤ 59 ∧ ss ≤ 59 then
                        some ⟨mo, da, hh * 3600 + mi * 60 + ss⟩
                      else none
                  | _ => none
              | _ => none
          | _ => none
    else none
  | _ => none

/-- Go `date.AddDate(y, 0, 0)` applied to the parse result (year 0): the
civil fields of the sum, with the Feb 29 → Mar 1 renormalization in non-leap
years.  For parse-valid fields this agrees with Go's `Date` normalization. -/
def goWithYear (y : Int) (dt : ShowDate) : GoTime :=
  if dt.month = 2 ∧ dt.day = 29 ∧ ¬(isLeap y = true) then ⟨y, 3, 1, dt.sod⟩
  else ⟨y, dt.month, dt.day, dt.sod⟩

/-- The year-inference of `CollectTextualShowqFromScanner`: append the
current year; if the result lies after `now`, subtract one year
(`AddDate(-1, 0, 0)` on the normalized fields). -/
def inferredDate (now : GoTime) (dt : ShowDate) : GoTime :=
  let d1 := goWithYear now.year dt
  if now.secs < d1.secs then { d1 with year := d1.year - 1 } else d1

/-- Go: `^[0-9A-F]+([\*!]?) +(\d+) (\w{3} \w{3} +\d+ +\d+:\d{2}:\d{2}) +` -/
def messageLine : RE :=
  cat [.bos, plus (.pred fun c => c.isDigit || (decide ('A' ≤ c) && decide (c ≤ 'F'))),
       .group 1 (opt (.pred fun c => c == '*' || c == '!')),
       plus (chr ' '), .group 2 (plus digit), chr ' ',
       .group 3 (cat [wordChar, wordChar, wordChar, chr ' ',
                      wordChar, wordChar, wordChar, plus (chr ' '),
                      plus digit, plus (chr ' '),
                      plus digit, chr ':', digit, digit, chr ':', digit, digit]),
       plus (chr ' ')]

/-- Queue-name derivation of the textual parser. -/
def queueOfFlag (flag : List Char) : List Char :=
  if flag = "*".toList then "active".toList
  else if flag = "!".toList then "hold".toList
  else "other".toList

/-- One iteration of the scanner loop of `CollectTextualShowqFromScanner`:
non-matching lines are skipped; a matching line observes the parsed size and
the age `now - inferredDate` in seconds, or fails on an unparseable size or
date. -/
def collectTextualLine (now : GoTime) (st : ShowqState) (line : List Char) :
    Except (List Char) ShowqState :=
  match reFind messageLine line with
  | none => .ok st
  | some m =>
    let queue := queueOfFlag (m.groupD 1)
    match goParseFloat (m.groupD 2) with
    | none => .error "invalid size".toList
    | some size =>
      match parseShowqDate (m.groupD 3) with
      | none => .error "invalid date".toList
      | some dt =>
        .ok { st with
                sizeObs := st.sizeObs ++ [(queue, size)]
                ageObs := st.ageObs ++
                  [(queue, ((now.secs - (inferredDate now dt).secs : Int) : ℚ))] }

/-- Transliteration of the loop of `CollectTextualShowqFromScanner` over the
scanned lines. -/
def CollectTextualShowqFromScanner (now : GoTime) :
    List (List Char) → ShowqState → Except (List Char) ShowqState
  | [], st => .ok st
  | l :: ls, st =>
    match collectTextualLine now st l with
    | .error e => .error e
    | .ok st' => CollectTextualShowqFromScanner now ls st'

/-! ### Claim C1 -/

/-- A classification result with a populated subprocess variant: some field of
the `cleanup`/`lmtp`/`pipe`/`qmgr`/`smtp`/`smtpd` sub-structs differs from its
Go zero value. -/
def PopulatedVariant (r : LoglineResult) : Prop :=
  r.cleanup.process = true ∨ r.cleanup.reject = true
    ∨ r.lmtp.delays ≠ none
    ∨ r.pipe.relay ≠ [] ∨ r.pipe.delays ≠ none
    ∨ r.qmgr.size ≠ 0 ∨ r.qmgr.nrcpt ≠ 0 ∨ r.qmgr.removed = true
    ∨ r.smtp.delays ≠ none ∨ r.smtp.status ≠ [] ∨ r.smtp.tls ≠ none
    ∨ r.smtp.timeout = true
    ∨ r.smtpd.connect = true ∨ r.smtpd.disconnect = true
    ∨ r.smtpd.dnsError = true ∨ r.smtpd.process = true
    ∨ r.smtpd.lostConnection ≠ [] ∨ r.smtpd.saslMethod ≠ []
    ∨ r.smtpd.saslAuthFailed = true ∨ r.smtpd.reject ≠ []
    ∨ r.smtpd.tls ≠ none

/-- The invariant of claim C1 as a predicate on classification results. -/
def FlagInvariant (r : LoglineResult) : Prop :=
  (r.ignore = true → r.unsupported = true)
    ∧ (PopulatedVariant r → r.unsupported = false)

theorem flagInvariant_cleanupCase (sub rem : List Char) :
    FlagInvariant (cleanupCase sub rem) := by
  unfold cleanupCase
  repeat' split
  all_goals simp [FlagInvariant, PopulatedVariant, emptyResult]

theorem flagInvariant_lmtpCase (sub rem : List Char) :
    FlagInvariant (lmtpCase sub rem) := by
  unfold lmtpCase
  repeat' split
  all_goals simp [FlagInvariant, PopulatedVariant, emptyResult]

theorem flagInvariant_pipeCase (sub rem : List Char) :
    FlagInvariant (pipeCase sub rem) := by
  unfold pipeCase
  repeat' split
  all_goals simp [FlagInvariant, PopulatedVariant, emptyResult]

theorem flagInvariant_qmgrCase (sub rem : List Char) :
    FlagInvariant (qmgrCase sub rem) := by
  unfold qmgrCase
  repeat' split
  all_goals simp [FlagInvariant, PopulatedVariant, emptyResult]

theorem flagInvariant_smtpCase (sub rem : List Char) :
    FlagInvariant (smtpCase sub rem) := by
  unfold smtpCase
  repeat' split
  all_goals simp [FlagInvariant, PopulatedVariant, emptyResult]

theorem flagInvariant_smtpdCase (sub rem : List Char) :
    FlagInvariant (smtpdCase sub rem) := by
  unfold smtpdCase
  repeat' split
  all_goals simp [FlagInvariant, PopulatedVariant, emptyResult]

set_option maxHeartbeats 1600000 in
/-- C1: for every instance and raw line, `ignore` implies `unsupported`, and a
result with a populated subprocess variant never has `unsupported` set. -/
theorem parseLogLine_flag_invariant (inst line : List Char) :
    FlagInvariant (parseLogLine inst line) := by
  unfold parseLogLine
  repeat' split
  all_goals
    first
      | exact flagInvariant_cleanupCase _ _
      | exact flagInvariant_lmtpCase _ _
      | exact flagInvariant_pipeCase _ _
      | exact flagInvariant_qmgrCase _ _
      | exact flagInvariant_smtpCase _ _
      | exact flagInvariant_smtpdCase _ _
      | simp [FlagInvariant, PopulatedVariant, emptyResult]

/-- Witness for C1: both implications fire on concrete corpus lines — a
sibling-instance line has `ignore` (hence `unsupported`) set, and a populated
qmgr-removed line is not `unsupported`. -/
theorem parseLogLine_flag_invariant_witness :
    (parseLogLine "postfix".toList
        "Feb 11 16:49:24 letterman postfix-secondary/qmgr[8204]: AAB4D259B1: removed".toList).unsupported
      = true
    ∧ (parseLogLine "postfix".toList
        "Feb 11 16:49:24 letterman postfix/qmgr[8204]: AAB4D259B1: removed".toList).unsupported
      = false :=
  ⟨(parseLogLine_flag_invariant "postfix".toList
      "Feb 11 16:49:24 letterman postfix-secondary/qmgr[8204]: AAB4D259B1: removed".toList).1
      (by decide),
   (parseLogLine_flag_invariant "postfix".toList
      "Feb 11 16:49:24 letterman postfix/qmgr[8204]: AAB4D259B1: removed".toList).2
      (by unfold PopulatedVariant; decide)⟩

/-! ### Claim C2 -/

/-- C2: a line whose matched instance token differs from the instance under
evaluation but starts with the base instance name "postfix" (a sibling
instance) is classified `ignore = true` (with `unsupported = true`), and
applying the result through the metrics mapper leaves every metric — in
particular the unsupported-entries counter — unchanged. -/
theorem sibling_instance_ignored (inst line : List Char) (m : ReMatch)
    (hm : reFind logLine line = some m)
    (hne : m.groupD 1 ≠ inst)
    (hpfx : listHasPfx "postfix".toList (m.groupD 1) = true) :
    (parseLogLine inst line).ignore = true
    ∧ (parseLogLine inst line).unsupported = true
    ∧ ∀ e : MetricsState, CollectFromLogLine inst line e = e := by
  have hr : parseLogLine inst line =
      { emptyResult with
          subprocess := m.groupD 2
          ignore := listHasPfx "postfix".toList (m.groupD 1)
          unsupported := true } := by
    unfold parseLogLine
    rw [hm]
    simp only [if_pos hne]
  have hign : (parseLogLine inst line).ignore = true := by rw [hr]; exact hpfx
  have huns : (parseLogLine inst line).unsupported = true := by rw [hr]
  refine ⟨hign, huns, fun e => ?_⟩
  unfold CollectFromLogLine
  simp [hign, huns]

/-- Witness for C2 at the sibling-instance corpus line. -/
theorem sibling_instance_ignored_witness :
    (parseLogLine "postfix".toList
      "Feb 11 16:49:24 letterman postfix-secondary/qmgr[8204]: AAB4D259B1: removed".toList).ignore
        = true
    ∧ CollectFromLogLine "postfix".toList
        "Feb 11 16:49:24 letterman postfix-secondary/qmgr[8204]: AAB4D259B1: removed".toList
        ⟨[], [], [], [], [], [], [], [], [], [], [], [], [], [], [], [], [],
         [], [], [], []⟩
      = ⟨[], [], [], [], [], [], [], [], [], [], [], [], [], [], [], [], [],
         [], [], [], []⟩ := by
  have h := sibling_instance_ignored "postfix".toList
    "Feb 11 16:49:24 letterman postfix-secondary/qmgr[8204]: AAB4D259B1: removed".toList
    ((reFind logLine
      "Feb 11 16:49:24 letterman postfix-secondary/qmgr[8204]: AAB4D259B1: removed".toList).getD
      ⟨[], 0, 0, []⟩)
    (by decide) (by decide) (by decide)
  exact ⟨h.1, h.2.2 _⟩

/-! ### Dispatch lemmas shared by the per-subprocess claims -/

theorem parseLogLine_eq_lmtpCase (inst line : List Char) (m : ReMatch)
    (hm : reFind logLine line = some m) (hinst : m.groupD 1 = inst)
    (hsub : m.groupD 2 = "lmtp".toList) :
    parseLogLine inst line = lmtpCase "lmtp".toList (m.groupD 3) := by
  unfold parseLogLine
  simp only [hm]
  rw [hinst, hsub]
  simp

theorem parseLogLine_eq_pipeCase (inst line : List Char) (m : ReMatch)
    (hm : reFind logLine line = some m) (hinst : m.groupD 1 = inst)
    (hsub : m.groupD 2 = "pipe".toList) :
    parseLogLine inst line = pipeCase "pipe".toList (m.groupD 3) := by
  unfold parseLogLine
  simp only [hm]
  rw [hinst, hsub]
  simp

theorem parseLogLine_eq_qmgrCase (inst line : List Char) (m : ReMatch)
    (hm : reFind logLine line = some m) (hinst : m.groupD 1 = inst)
    (hsub : m.groupD 2 = "qmgr".toList) :
    parseLogLine inst line = qmgrCase "qmgr".toList (m.groupD 3) := by
  unfold parseLogLine
  simp only [hm]
  rw [hinst, hsub]
  simp

theorem parseLogLine_eq_smtpCase (inst line : List Char) (m : ReMatch)
    (hm : reFind logLine line = some m) (hinst : m.groupD 1 = inst)
    (hsub : m.groupD 2 = "smtp".toList) :
    parseLogLine inst line = smtpCase "smtp".toList (m.groupD 3) := by
  unfold parseLogLine
  simp only [hm]
  rw [hinst, hsub]
  simp

theorem parseLogLine_eq_smtpdCase (inst line : List Char) (m : ReMatch)
    (hm : reFind logLine line = some m) (hinst : m.groupD 1 = inst)
    (hsub : m.groupD 2 = "smtpd".toList) :
    parseLogLine inst line = smtpdCase "smtpd".toList (m.groupD 3) := by
  unfold parseLogLine
  simp only [hm]
  rw [hinst, hsub]
  simp

/-! ### Claim C3 -/

/-- Counterexample to C3 as stated: a qmgr line for the active instance whose
remainder ends in ": removed" but also matches the insert pattern is
classified as inserted-with-size/nrcpt, not as removed — the insert pattern
is tried first. -/
theorem qmgr_removed_claim_counterexample :
    ((reFind logLine
        "Feb 11 16:49:24 letterman postfix/qmgr[8204]: 4AE: from=<a@b>, size=5, nrcpt=2 (queue active): removed".toList).map
      fun m => listHasSfx ": removed".toList (m.groupD 3)) = some true
    ∧ (parseLogLine "postfix".toList
        "Feb 11 16:49:24 letterman postfix/qmgr[8204]: 4AE: from=<a@b>, size=5, nrcpt=2 (queue active): removed".toList).qmgr.removed
      = false
    ∧ (parseLogLine "postfix".toList
        "Feb 11 16:49:24 letterman postfix/qmgr[8204]: 4AE: from=<a@b>, size=5, nrcpt=2 (queue active): removed".toList).qmgr.size
      = 5 := by
  refine ⟨by decide, by decide, by with_unfolding_all rfl⟩

/-- C3 as amended: a qmgr line for the active instance whose remainder ends
in ": removed" and does not match the insert pattern yields the
removed-message result and no other qmgr result; removed and
inserted-with-size/nrcpt remain mutually exclusive, with the insert pattern
taking priority. -/
theorem qmgr_removed_amended (inst line : List Char) (m : ReMatch)
    (hm : reFind logLine line = some m) (hinst : m.groupD 1 = inst)
    (hsub : m.groupD 2 = "qmgr".toList)
    (hsfx : listHasSfx ": removed".toList (m.groupD 3) = true)
    (hins : reFind qmgrInsertLine (m.groupD 3) = none) :
    (parseLogLine inst line).qmgr.removed = true
    ∧ (parseLogLine inst line).qmgr.size = 0
    ∧ (parseLogLine inst line).qmgr.nrcpt = 0
    ∧ (parseLogLine inst line).unsupported = false := by
  rw [parseLogLine_eq_qmgrCase inst line m hm hinst hsub]
  unfold qmgrCase
  rw [hins, hsfx]
  simp [emptyResult]

/-- Witness for C3's amended statement at the qmgr-removed corpus line. -/
theorem qmgr_removed_amended_witness :
    (parseLogLine "postfix".toList
      "Feb 11 16:49:24 letterman postfix/qmgr[8204]: AAB4D259B1: removed".toList).qmgr.removed
      = true := by
  have h := qmgr_removed_amended "postfix".toList
    "Feb 11 16:49:24 letterman postfix/qmgr[8204]: AAB4D259B1: removed".toList
    ((reFind logLine
      "Feb 11 16:49:24 letterman postfix/qmgr[8204]: AAB4D259B1: removed".toList).getD
      ⟨[], 0, 0, []⟩)
    (by decide) (by decide) (by decide) (by decide) (by decide)
  exact h.1

/-! ### Claim C4 -/

/-- C4: an smtp line for the active instance produces exactly one of the four
outcomes delay / TLS / timeout / unsupported, and a status annotation is
attached only when the delay pattern matched on the same remainder. -/
theorem smtp_outcome_exclusive (inst line : List Char) (m : ReMatch)
    (hm : reFind logLine line = some m) (hinst : m.groupD 1 = inst)
    (hsub : m.groupD 2 = "smtp".toList) :
    ([(parseLogLine inst line).smtp.delays.isSome,
      (parseLogLine inst line).smtp.tls.isSome,
      (parseLogLine inst line).smtp.timeout,
      (parseLogLine inst line).unsupported].count true = 1)
    ∧ ((parseLogLine inst line).smtp.status ≠ [] →
        (parseLogLine inst line).smtp.delays.isSome = true) := by
  rw [parseLogLine_eq_smtpCase inst line m hm hinst hsub]
  unfold smtpCase
  repeat' split
  all_goals simp [emptyResult]

/-- Witness for C4: the delay corpus line carries a status and a delay
quadruple. -/
theorem smtp_outcome_exclusive_witness :
    ([(parseLogLine "postfix".toList
        "Feb 24 16:18:40 letterman postfix/smtp[59649]: 5270320179: to=<hebj@telia.com>, relay=mail.telia.com[81.236.60.210]:25, delay=2017, delays=0.1/2017/0.03/0.05, dsn=2.0.0, status=sent (250 2.0.0 6FVIjIMwUJwU66FVIjAEB0 mail accepted for delivery)".toList).smtp.delays.isSome,
      (parseLogLine "postfix".toList
        "Feb 24 16:18:40 letterman postfix/smtp[59649]: 5270320179: to=<hebj@telia.com>, relay=mail.telia.com[81.236.60.210]:25, delay=2017, delays=0.1/2017/0.03/0.05, dsn=2.0.0, status=sent (250 2.0.0 6FVIjIMwUJwU66FVIjAEB0 mail accepted for delivery)".toList).smtp.tls.isSome,
      (parseLogLine "postfix".toList
        "Feb 24 16:18:40 letterman postfix/smtp[59649]: 5270320179: to=<hebj@telia.com>, relay=mail.telia.com[81.236.60.210]:25, delay=2017, delays=0.1/2017/0.03/0.05, dsn=2.0.0, status=sent (250 2.0.0 6FVIjIMwUJwU66FVIjAEB0 mail accepted for delivery)".toList).smtp.timeout,
      (parseLogLine "postfix".toList
        "Feb 24 16:18:40 letterman postfix/smtp[59649]: 5270320179: to=<hebj@telia.com>, relay=mail.telia.com[81.236.60.210]:25, delay=2017, delays=0.1/2017/0.03/0.05, dsn=2.0.0, status=sent (250 2.0.0 6FVIjIMwUJwU66FVIjAEB0 mail accepted for delivery)".toList).unsupported].count true = 1) :=
  (smtp_outcome_exclusive "postfix".toList
    "Feb 24 16:18:40 letterman postfix/smtp[59649]: 5270320179: to=<hebj@telia.com>, relay=mail.telia.com[81.236.60.210]:25, delay=2017, delays=0.1/2017/0.03/0.05, dsn=2.0.0, status=sent (250 2.0.0 6FVIjIMwUJwU66FVIjAEB0 mail accepted for delivery)".toList
    ((reFind logLine
      "Feb 24 16:18:40 letterman postfix/smtp[59649]: 5270320179: to=<hebj@telia.com>, relay=mail.telia.com[81.236.60.210]:25, delay=2017, delays=0.1/2017/0.03/0.05, dsn=2.0.0, status=sent (250 2.0.0 6FVIjIMwUJwU66FVIjAEB0 mail accepted for delivery)".toList).getD
      ⟨[], 0, 0, []⟩)
    (by decide) (by decide) (by decide)).1

/-! ### Claim C5 -/

/-- C5: the smtpd checks run in the fixed source order connect, disconnect,
FCrDNS warning, lost-connection, SASL method, generic client-processed,
NOQUEUE rejection, SASL authentication failure, TLS established; the first
matching check alone determines the result, and a line matching the
SASL-method pattern is never classified as a generic client-processed line. -/
theorem smtpd_ordered_first_match (inst line : List Char) (m : ReMatch)
    (hm : reFind logLine line = some m) (hinst : m.groupD 1 = inst)
    (hsub : m.groupD 2 = "smtpd".toList) :
    ((reFind smtpdProcessesSASLLine (m.groupD 3)).isSome = true →
        (parseLogLine inst line).smtpd.process = false)
    ∧ (listHasPfx "connect from ".toList (m.groupD 3) = true →
        (parseLogLine inst line).smtpd = { emptyResult.smtpd with connect := true })
    ∧ (listHasPfx "connect from ".toList (m.groupD 3) = false →
       listHasPfx "disconnect from ".toList (m.groupD 3) = true →
        (parseLogLine inst line).smtpd = { emptyResult.smtpd with disconnect := true })
    ∧ (listHasPfx "connect from ".toList (m.groupD 3) = false →
       listHasPfx "disconnect from ".toList (m.groupD 3) = false →
       (reFind smtpdFCrDNSErrorsLine (m.groupD 3)).isSome = true →
        (parseLogLine inst line).smtpd = { emptyResult.smtpd with dnsError := true })
    ∧ (∀ lcm : ReMatch,
       listHasPfx "connect from ".toList (m.groupD 3) = false →
       listHasPfx "disconnect from ".toList (m.groupD 3) = false →
       (reFind smtpdFCrDNSErrorsLine (m.groupD 3)).isSome = false →
       reFind smtpdLostConnectionLine (m.groupD 3) = some lcm →
        (parseLogLine inst line).smtpd =
          { emptyResult.smtpd with lostConnection := lcm.groupD 1 })
    ∧ (∀ sasm : ReMatch,
       listHasPfx "connect from ".toList (m.groupD 3) = false →
       listHasPfx "disconnect from ".toList (m.groupD 3) = false →
       (reFind smtpdFCrDNSErrorsLine (m.groupD 3)).isSome = false →
       reFind smtpdLostConnectionLine (m.groupD 3) = none →
       reFind smtpdProcessesSASLLine (m.groupD 3) = some sasm →
        (parseLogLine inst line).smtpd =
          { emptyResult.smtpd with saslMethod := sasm.groupD 1 })
    ∧ (listHasPfx "connect from ".toList (m.groupD 3) = false →
       listHasPfx "disconnect from ".toList (m.groupD 3) = false →
       (reFind smtpdFCrDNSErrorsLine (m.groupD 3)).isSome = false →
       reFind smtpdLostConnectionLine (m.groupD 3) = none →
       reFind smtpdProcessesSASLLine (m.groupD 3) = none →
       listHasSub ": client=".toList (m.groupD 3) = true →
        (parseLogLine inst line).smtpd = { emptyResult.smtpd with process := true })
    ∧ (∀ rjm : ReMatch,
       listHasPfx "connect from ".toList (m.groupD 3) = false →
       listHasPfx "disconnect from ".toList (m.groupD 3) = false →
       (reFind smtpdFCrDNSErrorsLine (m.groupD 3)).isSome = false →
       reFind smtpdLostConnectionLine (m.groupD 3) = none →
       reFind smtpdProcessesSASLLine (m.groupD 3) = none →
       listHasSub ": client=".toList (m.groupD 3) = false →
       reFind smtpdRejectsLine (m.groupD 3) = some rjm →
        (parseLogLine inst line).smtpd =
          { emptyResult.smtpd with reject := rjm.groupD 1 })
    ∧ (listHasPfx "connect from ".toList (m.groupD 3) = false →
       listHasPfx "disconnect from ".toList (m.groupD 3) = false →
       (reFind smtpdFCrDNSErrorsLine (m.groupD 3)).isSome = false →
       reFind smtpdLostConnectionLine (m.groupD 3) = none →
       reFind smtpdProcessesSASLLine (m.groupD 3) = none →
       listHasSub ": client=".toList (m.groupD 3) = false →
       reFind smtpdRejectsLine (m.groupD 3) = none →
       (reFind smtpdSASLAuthenticationFailuresLine (m.groupD 3)).isSome = true →
        (parseLogLine inst line).smtpd =
          { emptyResult.smtpd with saslAuthFailed := true })
    ∧ (∀ tlm : ReMatch,
       listHasPfx "connect from ".toList (m.groupD 3) = false →
       listHasPfx "disconnect from ".toList (m.groupD 3) = false →
       (reFind smtpdFCrDNSErrorsLine (m.groupD 3)).isSome = false →
       reFind smtpdLostConnectionLine (m.groupD 3) = none →
       reFind smtpdProcessesSASLLine (m.groupD 3) = none →
       listHasSub ": client=".toList (m.groupD 3) = false →
       reFind smtpdRejectsLine (m.groupD 3) = none →
       (reFind smtpdSASLAuthenticationFailuresLine (m.groupD 3)).isSome = false →
       reFind smtpdTLSLine (m.groupD 3) = some tlm →
        (parseLogLine inst line).smtpd =
          { emptyResult.smtpd with
              tls := some [tlm.groupD 1, tlm.groupD 2, tlm.groupD 3,
                           tlm.groupD 4, tlm.groupD 5] })
    ∧ (listHasPfx "connect from ".toList (m.groupD 3) = false →
       listHasPfx "disconnect from ".toList (m.groupD 3) = false →
       (reFind smtpdFCrDNSErrorsLine (m.groupD 3)).isSome = false →
       reFind smtpdLostConnectionLine (m.groupD 3) = none →
       reFind smtpdProcessesSASLLine (m.groupD 3) = none →
       listHasSub ": client=".toList (m.groupD 3) = false →
       reFind smtpdRejectsLine (m.groupD 3) = none →
       (reFind smtpdSASLAuthenticationFailuresLine (m.groupD 3)).isSome = false →
       reFind smtpdTLSLine (m.groupD 3) = none →
        (parseLogLine inst line).unsupported = true) := by
  rw [parseLogLine_eq_smtpdCase inst line m hm hinst hsub]
  unfold smtpdCase
  refine ⟨?_, ?_, ?_, ?_, ?_, ?_, ?_, ?_, ?_, ?_, ?_⟩
  all_goals intros
  all_goals repeat' split
  all_goals simp_all [emptyResult]

/-- Witness for C5: the SASL corpus line resolves to the SASL outcome, not to
the generic client-processed outcome, and a connect line resolves to the
connect outcome. -/
theorem smtpd_ordered_first_match_witness :
    (parseLogLine "postfix".toList
      "Oct 30 13:19:26 mailgw-out1 postfix/smtpd[27530]: EB4B2C19E2: client=xxx[1.2.3.4], sasl_method=PLAIN, sasl_username=user@domain".toList).smtpd.process
      = false :=
  (smtpd_ordered_first_match "postfix".toList
    "Oct 30 13:19:26 mailgw-out1 postfix/smtpd[27530]: EB4B2C19E2: client=xxx[1.2.3.4], sasl_method=PLAIN, sasl_username=user@domain".toList
    ((reFind logLine
      "Oct 30 13:19:26 mailgw-out1 postfix/smtpd[27530]: EB4B2C19E2: client=xxx[1.2.3.4], sasl_method=PLAIN, sasl_username=user@domain".toList).getD
      ⟨[], 0, 0, []⟩)
    (by decide) (by decide) (by decide)).1 (by decide)

/-! ### Claim C6 -/

/-- C6: when the shared delay pattern matches with components
`0.1/2017/0.03/0.05`, the lmtp, pipe and smtp classifications all yield
exactly the quadruple (before queue manager, queue manager, connection setup,
transmission) = (0.1, 2017, 0.03, 0.05), in that positional order.  That the
four delay fields are populated all together or not at all is enforced
structurally: the four stages form one record behind one `Option` (one Go
struct behind one pointer). -/
theorem delay_quadruple_extraction (inst line : List Char) (m dm : ReMatch)
    (hm : reFind logLine line = some m) (hinst : m.groupD 1 = inst)
    (hdm : reFind lmtpPipeSMTPLine (m.groupD 3) = some dm)
    (h2 : dm.groupD 2 = "0.1".toList) (h3 : dm.groupD 3 = "2017".toList)
    (h4 : dm.groupD 4 = "0.03".toList) (h5 : dm.groupD 5 = "0.05".toList) :
    (m.groupD 2 = "lmtp".toList →
      (parseLogLine inst line).lmtp.delays = some ⟨1/10, 2017, 3/100, 1/20⟩)
    ∧ (m.groupD 2 = "pipe".toList →
      (parseLogLine inst line).pipe.delays = some ⟨1/10, 2017, 3/100, 1/20⟩)
    ∧ (m.groupD 2 = "smtp".toList →
      (parseLogLine inst line).smtp.delays = some ⟨1/10, 2017, 3/100, 1/20⟩) := by
  have hv2 : convertValue (dm.groupD 2) = 1/10 := by
    rw [h2]; with_unfolding_all rfl
  have hv3 : convertValue (dm.groupD 3) = 2017 := by
    rw [h3]; with_unfolding_all rfl
  have hv4 : convertValue (dm.groupD 4) = 3/100 := by
    rw [h4]; with_unfolding_all rfl
  have hv5 : convertValue (dm.groupD 5) = 1/20 := by
    rw [h5]; with_unfolding_all rfl
  refine ⟨fun hs => ?_, fun hs => ?_, fun hs => ?_⟩
  · rw [parseLogLine_eq_lmtpCase inst line m hm hinst hs]
    unfold lmtpCase
    simp only [hdm]
    rw [hv2, hv3, hv4, hv5]
  · rw [parseLogLine_eq_pipeCase inst line m hm hinst hs]
    unfold pipeCase
    simp only [hdm]
    rw [hv2, hv3, hv4, hv5]
  · rw [parseLogLine_eq_smtpCase inst line m hm hinst hs]
    unfold smtpCase
    simp only [hdm]
    rw [hv2, hv3, hv4, hv5]

/-- Witness for C6 at the delay corpus line. -/
theorem delay_quadruple_extraction_witness :
    (parseLogLine "postfix".toList
      "Feb 24 16:18:40 letterman postfix/smtp[59649]: 5270320179: to=<hebj@telia.com>, relay=mail.telia.com[81.236.60.210]:25, delay=2017, delays=0.1/2017/0.03/0.05, dsn=2.0.0, status=sent (250 2.0.0 6FVIjIMwUJwU66FVIjAEB0 mail accepted for delivery)".toList).smtp.delays
      = some ⟨1/10, 2017, 3/100, 1/20⟩ :=
  (delay_quadruple_extraction "postfix".toList
    "Feb 24 16:18:40 letterman postfix/smtp[59649]: 5270320179: to=<hebj@telia.com>, relay=mail.telia.com[81.236.60.210]:25, delay=2017, delays=0.1/2017/0.03/0.05, dsn=2.0.0, status=sent (250 2.0.0 6FVIjIMwUJwU66FVIjAEB0 mail accepted for delivery)".toList
    ((reFind logLine
      "Feb 24 16:18:40 letterman postfix/smtp[59649]: 5270320179: to=<hebj@telia.com>, relay=mail.telia.com[81.236.60.210]:25, delay=2017, delays=0.1/2017/0.03/0.05, dsn=2.0.0, status=sent (250 2.0.0 6FVIjIMwUJwU66FVIjAEB0 mail accepted for delivery)".toList).getD
      ⟨[], 0, 0, []⟩)
    ((reFind lmtpPipeSMTPLine
      (((reFind logLine
        "Feb 24 16:18:40 letterman postfix/smtp[59649]: 5270320179: to=<hebj@telia.com>, relay=mail.telia.com[81.236.60.210]:25, delay=2017, delays=0.1/2017/0.03/0.05, dsn=2.0.0, status=sent (250 2.0.0 6FVIjIMwUJwU66FVIjAEB0 mail accepted for delivery)".toList).getD
        ⟨[], 0, 0, []⟩).groupD 3)).getD ⟨[], 0, 0, []⟩)
    (by decide) (by decide) (by decide) (by decide) (by decide) (by decide)
    (by decide)).2.2 (by decide)

/-! ### Claim C9 -/

/-- C9: the instance filter treats any matched process token other than the
instance as a sibling to ignore whenever it starts with "postfix"; an
unrelated process of the shape `postfix-<word>` (such as "postfix-like") is
therefore misclassified as `ignore` rather than merely unsupported.  The
spec's literal example "postfixlike" does not reproduce this: that token does
not match the prefix pattern at all, so the line is unsupported-only. -/
theorem unrelated_process_name_ignored :
    (parseLogLine "postfix".toList
      "Feb 11 16:49:24 letterman postfix-like[8204]: foo bar".toList).ignore = true
    ∧ (parseLogLine "postfix".toList
      "Feb 11 16:49:24 letterman postfix-like[8204]: foo bar".toList).unsupported = true
    ∧ "postfix-like".toList ≠ "postfix".toList
    ∧ listHasPfx "postfix".toList "postfix-like".toList = true
    ∧ (parseLogLine "postfix".toList
      "Feb 11 16:49:24 letterman postfixlike[8204]: foo bar".toList).ignore = false
    ∧ (parseLogLine "postfix".toList
      "Feb 11 16:49:24 letterman postfixlike[8204]: foo bar".toList).unsupported = true := by
  decide

/-! ### Claim C10 -/

/-- C10: an smtpd line reaching the SASL check whose remainder matches the
SASL pattern with an empty method capture yields `unsupported = false`, an
empty `saslMethod` and `process = false`, and applying the result through the
metrics mapper leaves every metric unchanged: the line is counted neither as
a SASL connection, nor as a processed message, nor as an unsupported entry. -/
theorem smtpd_empty_sasl_no_metrics (inst line : List Char) (m sasm : ReMatch)
    (hm : reFind logLine line = some m) (hinst : m.groupD 1 = inst)
    (hsub : m.groupD 2 = "smtpd".toList)
    (hc1 : listHasPfx "connect from ".toList (m.groupD 3) = false)
    (hc2 : listHasPfx "disconnect from ".toList (m.groupD 3) = false)
    (hc3 : (reFind smtpdFCrDNSErrorsLine (m.groupD 3)).isSome = false)
    (hc4 : reFind smtpdLostConnectionLine (m.groupD 3) = none)
    (hsasl : reFind smtpdProcessesSASLLine (m.groupD 3) = some sasm)
    (hcap : sasm.group 1 = none) :
    (parseLogLine inst line).unsupported = false
    ∧ (parseLogLine inst line).smtpd.saslMethod = []
    ∧ (parseLogLine inst line).smtpd.process = false
    ∧ ∀ e : MetricsState, CollectFromLogLine inst line e = e := by
  have hsm : sasm.groupD 1 = [] := by
    unfold ReMatch.groupD
    rw [hcap]
    rfl
  have hr : parseLogLine inst line =
      { emptyResult with
          subprocess := "smtpd".toList
          smtpd := { emptyResult.smtpd with saslMethod := [] } } := by
    rw [parseLogLine_eq_smtpdCase inst line m hm hinst hsub]
    unfold smtpdCase
    simp only [hc1, hc2, hc3, hc4, hsasl, hsm]
    simp
  refine ⟨by rw [hr]; try rfl, by rw [hr]; try rfl, by rw [hr]; try rfl,
    fun e => ?_⟩
  unfold CollectFromLogLine
  rw [hr]
  simp [emptyResult]

/-- Witness for C10 at an empty-`sasl_method=` line: the classification flags
and the untouched metric state. -/
theorem smtpd_empty_sasl_no_metrics_witness :
    (parseLogLine "postfix".toList
      "Feb 24 16:42:00 letterman postfix/smtpd[24906]: 1CF582025C: client=xxx[2.3.4.5], sasl_method=".toList).unsupported
      = false
    ∧ CollectFromLogLine "postfix".toList
        "Feb 24 16:42:00 letterman postfix/smtpd[24906]: 1CF582025C: client=xxx[2.3.4.5], sasl_method=".toList
        ⟨[], [], [], [], [], [], [], [], [], [], [], [], [], [], [], [], [],
         [], [], [], []⟩
      = ⟨[], [], [], [], [], [], [], [], [], [], [], [], [], [], [], [], [],
         [], [], [], []⟩ := by
  have h := smtpd_empty_sasl_no_metrics "postfix".toList
    "Feb 24 16:42:00 letterman postfix/smtpd[24906]: 1CF582025C: client=xxx[2.3.4.5], sasl_method=".toList
    ((reFind logLine
      "Feb 24 16:42:00 letterman postfix/smtpd[24906]: 1CF582025C: client=xxx[2.3.4.5], sasl_method=".toList).getD
      ⟨[], 0, 0, []⟩)
    ((reFind smtpdProcessesSASLLine
      (((reFind logLine
        "Feb 24 16:42:00 letterman postfix/smtpd[24906]: 1CF582025C: client=xxx[2.3.4.5], sasl_method=".toList).getD
        ⟨[], 0, 0, []⟩).groupD 3)).getD ⟨[], 0, 0, []⟩)
    (by decide) (by decide) (by decide) (by decide) (by decide) (by decide)
    (by decide) (by decide) (by decide)
  exact ⟨h.1, h.2.2.2 _⟩

/-! ### Claim C7 -/

theorem collectBinaryGo_isOk (now : ℚ) (toks : List (List Char))
    (queue : List Char) (st : ShowqState) (tail : Bool) :
    (collectBinaryGo now toks queue st tail).isOk = false
      ↔ (claimMalformedRecord toks || tail) = true := by
  induction toks, queue, st, tail using collectBinaryGo.induct now
  case case3 key rest queue st tail hk ih =>
    rw [collectBinaryGo.eq_def, claimMalformedRecord.eq_def]
    simpa [hk] using ih
  all_goals simp_all [collectBinaryGo, claimMalformedRecord, Except.isOk, Except.toBool]

/-- Counterexample to C7 as stated: input whose final record lacks its NUL
terminator makes the binary parser fail, although per the claim's error
condition (a key with no following value, or an unparseable numeric field —
`claimMalformedRecord`) it should complete without error. -/
theorem showq_error_condition_counterexample :
    (CollectBinaryShowqFromReader 0 "a\u0000b\u0000x".toList).isOk = false
    ∧ claimMalformedRecord (scanTokens "a\u0000b\u0000x".toList).1 = false := by
  constructor <;> decide

/-- C7 as amended: the binary showq parse fails exactly when the token stream
contains a key with no following value or an unparseable `size`/`time` value,
or the input ends in a record without NUL terminator; and the textual showq
parse skips non-matching lines, completing without error and without
observations. -/
theorem showq_error_condition_amended :
    (∀ (now : ℚ) (input : List Char),
      (CollectBinaryShowqFromReader now input).isOk = false
        ↔ (claimMalformedRecord (scanTokens input).1
            || (scanTokens input).2) = true)
    ∧ ∀ (now : GoTime) (lines : List (List Char)) (st : ShowqState),
        (∀ l ∈ lines, reFind messageLine l = none) →
        CollectTextualShowqFromScanner now lines st = .ok st := by
  constructor
  · intro now input
    unfold CollectBinaryShowqFromReader
    exact collectBinaryGo_isOk now (scanTokens input).1 "unknown".toList
      emptyShowq (scanTokens input).2
  · intro now lines
    induction lines with
    | nil => intro st _; rfl
    | cons l ls ih =>
      intro st h
      have hl : reFind messageLine l = none := h l (by simp)
      show (match collectTextualLine now st l with
            | .error e => .error e
            | .ok st' => CollectTextualShowqFromScanner now ls st')
          = Except.ok st
      unfold collectTextualLine
      rw [hl]
      exact ih st fun x hx => h x (List.mem_cons_of_mem _ hx)

/-- Witness for C7's amended statement: a well-formed binary stream parses
without error, the truncated stream fails, and a textual header line is
skipped without error. -/
theorem showq_error_condition_amended_witness :
    (CollectBinaryShowqFromReader 0
        "queue_name\u0000active\u0000size\u0000100\u0000".toList).isOk = true
    ∧ (CollectBinaryShowqFromReader 0 "a\u0000b\u0000x".toList).isOk = false
    ∧ CollectTextualShowqFromScanner ⟨2017, 2, 15, 0⟩
        ["-Queue ID- --Size-- ----Arrival Time---- -Sender/Recipient-------".toList]
        emptyShowq
      = .ok emptyShowq := by
  refine ⟨?_, ?_, ?_⟩
  · have h := (showq_error_condition_amended.1 0
      "queue_name\u0000active\u0000size\u0000100\u0000".toList)
    have hr : (claimMalformedRecord
        (scanTokens "queue_name\u0000active\u0000size\u0000100\u0000".toList).1
          || (scanTokens "queue_name\u0000active\u0000size\u0000100\u0000".toList).2)
        = false := by decide
    cases hok : (CollectBinaryShowqFromReader 0
        "queue_name\u0000active\u0000size\u0000100\u0000".toList).isOk
    · exact absurd (hr ▸ h.mp hok) (by decide)
    · rfl
  · exact (showq_error_condition_amended.1 0 "a\u0000b\u0000x".toList).mpr
      (by decide)
  · exact showq_error_condition_amended.2 ⟨2017, 2, 15, 0⟩
      ["-Queue ID- --Size-- ----Arrival Time---- -Sender/Recipient-------".toList]
      emptyShowq (by decide)

/-! ### Claim C8 -/

/-- A capture-time `time.Time` with well-formed civil fields (year at least 1:
the code runs at current dates; the bound only excludes the proleptic era
before year 1). -/
def ValidGoTime (t : GoTime) : Prop :=
  1 ≤ t.year ∧ 1 ≤ t.month ∧ t.month ≤ 12 ∧ 1 ≤ t.day ∧ 0 ≤ t.sod

/-- Well-formedness of a parsed yearless date, as guaranteed by
`parseShowqDate`. -/
def ValidShowDate (d : ShowDate) : Prop :=
  1 ≤ d.month ∧ d.month ≤ 12 ∧ 1 ≤ d.day ∧ d.day ≤ daysInMonth0 d.month
    ∧ 0 ≤ d.sod ∧ d.sod ≤ 86399

theorem daysInMonth0_le (m : Int) : daysInMonth0 m ≤ 31 := by
  unfold daysInMonth0
  split_ifs <;> omega

theorem monthNum_bounds (s : List Char) (m : Int) (h : monthNum s = some m) :
    1 ≤ m ∧ m ≤ 12 := by
  unfold monthNum at h
  obtain ⟨p, hfind, hp2⟩ := Option.map_eq_some'.mp h
  have hmem := List.mem_of_find?_eq_some hfind
  subst hp2
  obtain ⟨a, b⟩ := p
  simp only [monthTable, List.mem_cons, List.not_mem_nil, or_false] at hmem
  rcases hmem with h1 | h1 | h1 | h1 | h1 | h1 | h1 | h1 | h1 | h1 | h1 | h1 <;>
    injection h1 with ha hb <;> dsimp only <;> omega

theorem getNum_nonneg (s : List Char) (v : Int) (r : List Char)
    (h : getNum s = some (v, r)) : 0 ≤ v := by
  unfold getNum at h
  repeat' split at h
  all_goals try exact Option.noConfusion h
  all_goals injection h with h'
  all_goals injection h' with h1 h2
  all_goals omega

theorem getNum2_nonneg (s : List Char) (v : Int) (r : List Char)
    (h : getNum2 s = some (v, r)) : 0 ≤ v := by
  unfold getNum2 at h
  repeat' split at h
  all_goals try exact Option.noConfusion h
  all_goals injection h with h'
  all_goals injection h' with h1 h2
  all_goals omega

theorem parseShowqDate_valid (s : List Char) (d : ShowDate)
    (h : parseShowqDate s = some d) : ValidShowDate d := by
  unfold parseShowqDate at h
  repeat' split at h
  all_goals try exact Option.noConfusion h
  rename_i hday xa mo hmo xb da ra rb hda xc hh rc rd hhh xd mi re rf hmi
    xe sec rg hss hcond
  injection h with h
  subst h
  obtain ⟨hm1, hm2⟩ := monthNum_bounds _ _ hmo
  have h1 := getNum_nonneg _ _ _ hda
  have h2 := getNum_nonneg _ _ _ hhh
  have h3 := getNum2_nonneg _ _ _ hmi
  have h4 := getNum2_nonneg _ _ _ hss
  unfold ValidShowDate
  dsimp only
  refine ⟨hm1, hm2, ?_, ?_, ?_, ?_⟩
  all_goals omega

theorem daysFromCivil_one_one (y : Int) :
    daysFromCivil y 1 1
      = 365 * (y - 1) + (y - 1) / 4 - (y - 1) / 100 + (y - 1) / 400 := by
  unfold daysFromCivil daysBeforeMonth isLeap
  norm_num

set_option maxHeartbeats 1600000 in
theorem daysFromCivil_jan1_le (y m d : Int) (_h1 : 1 ≤ m) (_h2 : m ≤ 12)
    (h3 : 1 ≤ d) : daysFromCivil y 1 1 ≤ daysFromCivil y m d := by
  rw [daysFromCivil_one_one]
  unfold daysFromCivil daysBeforeMonth isLeap
  simp only [decide_eq_true_eq]
  split_ifs <;> omega

set_option maxHeartbeats 1600000 in
theorem daysFromCivil_sub_year_lt (y m d : Int) (_h1 : 1 ≤ m) (_h2 : m ≤ 12)
    (h3 : 1 ≤ d) (h4 : d ≤ 31) :
    daysFromCivil (y - 1) m d < daysFromCivil y 1 1 := by
  rw [daysFromCivil_one_one]
  unfold daysFromCivil daysBeforeMonth isLeap
  simp only [decide_eq_true_eq]
  split_ifs <;> omega

/-- Age non-negativity: the inferred date never lies after the capture time,
in both branches of the year inference. -/
theorem inferredDate_le (now : GoTime) (dt : ShowDate)
    (hnow : ValidGoTime now) (hdt : ValidShowDate dt) :
    (inferredDate now dt).secs ≤ now.secs := by
  obtain ⟨hy, hm1, hm2, hd1, hs0⟩ := hnow
  obtain ⟨hdm1, hdm2, hdd1, hdd2, hds0, hds1⟩ := hdt
  have hkey : ∀ cm cd sd : Int, 1 ≤ cm → cm ≤ 12 → 1 ≤ cd → cd ≤ 31 →
      0 ≤ sd → sd ≤ 86399 →
      (GoTime.mk (now.year - 1) cm cd sd).secs ≤ now.secs := by
    intro cm cd sd c1 c2 c3 c4 c5 c6
    have hA := daysFromCivil_sub_year_lt now.year cm cd c1 c2 c3 c4
    have hB := daysFromCivil_jan1_le now.year now.month now.day hm1 hm2 hd1
    unfold GoTime.secs at *
    dsimp only at *
    omega
  have hd31 : dt.day ≤ 31 := le_trans hdd2 (daysInMonth0_le dt.month)
  unfold inferredDate goWithYear
  dsimp only
  split_ifs with hfeb hfut1 hfut2
  · exact hkey 3 1 dt.sod (by omega) (by omega) (by omega) (by omega) hds0 hds1
  · unfold GoTime.secs at *
    dsimp only at *
    omega
  · exact hkey dt.month dt.day dt.sod hdm1 hdm2 hdd1 hd31 hds0 hds1
  · unfold GoTime.secs at *
    dsimp only at *
    omega

/-- C8: a textual queue-snapshot line with a parseable yearless date observes
an age of exactly `now - inferred` seconds, where the inferred date appends
the current year and steps back one year when the result lies in the future;
the age is never negative. -/
theorem textual_age_inference (now : GoTime) (st : ShowqState)
    (line : List Char) (m : ReMatch) (dt : ShowDate) (sz : ℚ)
    (hnow : ValidGoTime now)
    (hm : reFind messageLine line = some m)
    (hsz : goParseFloat (m.groupD 2) = some sz)
    (hdt : parseShowqDate (m.groupD 3) = some dt) :
    collectTextualLine now st line =
      .ok { st with
              sizeObs := st.sizeObs ++ [(queueOfFlag (m.groupD 1), sz)]
              ageObs := st.ageObs ++
                [(queueOfFlag (m.groupD 1),
                  ((now.secs - (inferredDate now dt).secs : Int) : ℚ))] }
    ∧ inferredDate now dt =
        (if now.secs < (goWithYear now.year dt).secs then
          { goWithYear now.year dt with year := (goWithYear now.year dt).year - 1 }
         else goWithYear now.year dt)
    ∧ 0 ≤ now.secs - (inferredDate now dt).secs := by
  refine ⟨?_, rfl, ?_⟩
  · unfold collectTextualLine
    simp only [hm]
    rw [hsz, hdt]
  · have := inferredDate_le now dt hnow (parseShowqDate_valid _ _ hdt)
    omega

/-- Witness for C8 at the showq example line from the source comment, with a
capture time of Feb 15 2017 00:00:00: the age observed is non-negative and
the line yields one size and one age observation. -/
theorem textual_age_inference_witness :
    (∃ m : ReMatch,
      reFind messageLine
        "A07A81514      5156 Tue Feb 14 13:13:54  MAILER-DAEMON".toList = some m)
    ∧ 0 ≤ (⟨2017, 2, 15, 0⟩ : GoTime).secs -
        (inferredDate ⟨2017, 2, 15, 0⟩ ⟨2, 14, 47634⟩).secs := by
  have hm : reFind messageLine
      "A07A81514      5156 Tue Feb 14 13:13:54  MAILER-DAEMON".toList
      = some ((reFind messageLine
        "A07A81514      5156 Tue Feb 14 13:13:54  MAILER-DAEMON".toList).getD
        ⟨[], 0, 0, []⟩) := by decide
  refine ⟨⟨_, hm⟩, ?_⟩
  have h := textual_age_inference ⟨2017, 2, 15, 0⟩ emptyShowq
    "A07A81514      5156 Tue Feb 14 13:13:54  MAILER-DAEMON".toList
    ((reFind messageLine
      "A07A81514      5156 Tue Feb 14 13:13:54  MAILER-DAEMON".toList).getD
      ⟨[], 0, 0, []⟩)
    ⟨2, 14, 47634⟩ 5156
    ⟨by decide, by decide, by decide, by decide, by decide⟩
    hm (by with_unfolding_all rfl) (by decide)
  exact h.2.2

end PostExp
